import Mathlib

/-!
# Verification of the `bottom` control core

Shallow embedding of the two source files of the repository:

* `src/app/event.rs` — the timeout-bounded multi-key sequence recognizer
  (`MultiKey`, `MultiKeyState`, `MultiKeyResult`, `MultiKey::input`).
* `src/app.rs` — the application reducer (`AppState`, `AppMessages`,
  `AppState::update`, `AppState::is_terminated`,
  `AppState::set_current_screen`, `AppState::global_event_handler`).

Time is modelled by passing an explicit `now : Nat` (milliseconds) where the
Rust code reads `Instant::now()`; `trigger_instant.elapsed()` becomes
`now - trigger_instant` (Rust `Instant`s are monotone, so the subtraction
never underflows in a real run; `Nat` subtraction truncates identically).
The recursive self-call in `MultiKey::input` after a timeout reset always
lands in the `Idle` arm, so it is embedded as a direct call to that arm
(the spec itself notes the recursion is a loop bounded to two iterations).
-/

namespace Bottom

/-! ## `src/app/event.rs` -/

/-- State of a `MultiKey` recognizer (`MultiKeyState` in `event.rs`). -/
inductive MultiKeyState where
  /-- Currently not waiting on any next input. -/
  | Idle : MultiKeyState
  /-- Waiting for the next input: when it was triggered, and what part of the
  pattern it is at. -/
  | Waiting (trigger_instant : Nat) (checked_index : Nat) : MultiKeyState
deriving DecidableEq, Repr

/-- The possible outcomes of calling `MultiKey.input`. -/
inductive MultiKeyResult where
  | Accepted : MultiKeyResult
  | Completed : MultiKeyResult
  | Rejected : MultiKeyResult
deriving DecidableEq, Repr

/-- A struct for managing multi-key keybinds (`MultiKey` in `event.rs`).
`timeout` is in the same time unit as `now` (milliseconds). -/
structure MultiKey where
  state : MultiKeyState
  pattern : List Char
  timeout : Nat
deriving DecidableEq, Repr

namespace MultiKey

/-- `MultiKey::register`: creates a new `MultiKey` in the `Idle` state. -/
def register (pattern : List Char) (timeout : Nat) : MultiKey :=
  { state := MultiKeyState.Idle, pattern := pattern, timeout := timeout }

/-- `MultiKey::reset`: resets to an idle state. -/
def reset (mk : MultiKey) : MultiKey :=
  { mk with state := MultiKeyState.Idle }

/-- The `MultiKeyState::Idle` arm of `MultiKey::input`: if `c` equals the
first pattern character, move to `Waiting(now, 0)` and return `Accepted`;
otherwise return `Rejected`. -/
def inputIdle (mk : MultiKey) (now : Nat) (c : Char) : MultiKey × MultiKeyResult :=
  match mk.pattern.head? with
  | some first =>
      if first = c then
        ({ mk with state := MultiKeyState.Waiting now 0 }, MultiKeyResult.Accepted)
      else
        (mk, MultiKeyResult.Rejected)
  | none => (mk, MultiKeyResult.Rejected)

/-- `MultiKey::input`. The Rust code's `self.reset(); self.input(c)` on
timeout is embedded as `inputIdle mk.reset now c`, which is exactly the arm
that recursive call takes. -/
def input (mk : MultiKey) (now : Nat) (c : Char) : MultiKey × MultiKeyResult :=
  match mk.state with
  | MultiKeyState.Idle => inputIdle mk now c
  | MultiKeyState.Waiting trigger_instant checked_index =>
      if now - trigger_instant > mk.timeout then
        inputIdle mk.reset now c
      else
        match mk.pattern.get? (checked_index + 1) with
        | some next =>
            if next = c then
              if checked_index + 1 = mk.pattern.length - 1 then
                (mk.reset, MultiKeyResult.Completed)
              else
                ({ mk with
                    state := MultiKeyState.Waiting trigger_instant (checked_index + 1) },
                  MultiKeyResult.Accepted)
            else
              (mk.reset, MultiKeyResult.Rejected)
        | none => (mk.reset, MultiKeyResult.Rejected)

end MultiKey

/-! ## `src/app.rs` -/

/-- `CurrentScreen` in `app.rs`. -/
inductive CurrentScreen where
  | Main : CurrentScreen
  | Expanded : CurrentScreen
  | Help : CurrentScreen
  | Delete : CurrentScreen
deriving DecidableEq, Repr

/-- Modelled from the spec: `data_farmer.rs` (the `DataCollection` type) is
not among the provided source files.  Per the spec's Data Lifecycle Manager
contract, a collection is a bag of data points and `clean` "removes data
points older than the threshold".  Each point is represented by its age in
milliseconds. -/
structure DataCollection where
  points : List Nat
deriving DecidableEq, Repr

namespace DataCollection

/-- Modelled from the spec: `ingest(newSnapshot)` "merges/replaces the
current live snapshot with `newSnapshot`" (`DataCollection::eat_data`). -/
def eat_data (_dc : DataCollection) (new_data : DataCollection) : DataCollection :=
  new_data

/-- Modelled from the spec: `clean(maxAgeMilliseconds)` "removes data points
older than the threshold from the live snapshot"
(`DataCollection::clean_data`). -/
def clean_data (dc : DataCollection) (max_age : Nat) : DataCollection :=
  { points := dc.points.filter (fun age => age ≤ max_age) }

end DataCollection

/-- Modelled from the spec: `constants.rs` is not among the provided source
files; the staleness threshold passed to `clean_data` in
`AppMessages::Clean`.  Its value does not affect any claim. -/
def STALE_MAX_MILLISECONDS : Nat := 600000

/-- `FrozenState` in `frozen_state.rs` (shape given by the spec and by its
uses in `app.rs`): `NotFrozen`, or `Frozen` holding an owned copy of the
data collection. -/
inductive FrozenState where
  | NotFrozen : FrozenState
  | Frozen (frozen_data_collection : DataCollection) : FrozenState
deriving DecidableEq, Repr

namespace FrozenState

/-- Modelled from the spec: `toggleFreeze()` — "if currently NotFrozen,
deep-copies the live snapshot into a new Frozen value; if currently Frozen,
discards the frozen copy and reverts to NotFrozen"
(`FrozenState::toggle`, `frozen_state.rs` is not among the sources). -/
def toggle (fs : FrozenState) (dc : DataCollection) : FrozenState :=
  match fs with
  | NotFrozen => Frozen dc
  | Frozen _ => NotFrozen

/-- Occupancy of a `FrozenState`: whether it is `Frozen` (regardless of the
contents of the frozen copy). -/
def is_frozen : FrozenState → Bool
  | NotFrozen => false
  | Frozen _ => true

end FrozenState

/-- `Pid` (a process id, `i32` in the Rust code). -/
def Pid : Type := Int
deriving DecidableEq, Repr

/-- `AppMessages` in `app.rs`: the message union consumed by the reducer. -/
inductive AppMessages where
  | Update (new_data : DataCollection) : AppMessages
  | OpenHelp : AppMessages
  | ConfirmKillProcess (to_kill : List Pid) : AppMessages
  | KillProcess (to_kill : List Pid) (signal : Option Int) : AppMessages
  | ToggleFreeze : AppMessages
  | Reset : AppMessages
  | Clean : AppMessages
  | Quit : AppMessages
deriving DecidableEq, Repr

/-- `AppState` in `app.rs`, restricted to the fields the reducer reads or
writes.  The `Arc<AtomicBool>` terminator cell is a `Bool` (the reducer and
the interrupt handler are its only writers, and both only store `true`). -/
structure AppState where
  data_collection : DataCollection
  frozen_state : FrozenState
  current_screen : CurrentScreen
  terminator : Bool
deriving DecidableEq, Repr

namespace AppState

/-- `AppState::set_current_screen`, exactly as written in `app.rs`: the
assignment happens only under `self.current_screen == screen_type`. -/
def set_current_screen (s : AppState) (screen_type : CurrentScreen) : AppState :=
  if s.current_screen = screen_type then
    { s with current_screen := screen_type }
  else
    s

/-- `AppState::update` (the `Application::update` impl in `app.rs`):
applies one message, returns the new state and whether a redraw is
required. -/
def update (s : AppState) (message : AppMessages) : AppState × Bool :=
  match message with
  | AppMessages.Update new_data =>
      ({ s with data_collection := s.data_collection.eat_data new_data }, true)
  | AppMessages.OpenHelp =>
      (s.set_current_screen CurrentScreen.Help, true)
  | AppMessages.ConfirmKillProcess _ => (s, true)
  | AppMessages.KillProcess _ _ => (s, true)
  | AppMessages.ToggleFreeze =>
      ({ s with frozen_state := s.frozen_state.toggle s.data_collection }, true)
  | AppMessages.Clean =>
      ({ s with
          data_collection := s.data_collection.clean_data STALE_MAX_MILLISECONDS },
        false)
  | AppMessages.Quit => ({ s with terminator := true }, false)
  | AppMessages.Reset => (s, true)

/-- `AppState::is_terminated`: reads the terminator flag. -/
def is_terminated (s : AppState) : Bool :=
  s.terminator

/-- The closure registered by `AppState::register_terminator` via
`ctrlc::set_handler`: the interrupt handler stores `true` into the
terminator cell and does nothing else. -/
def interrupt_handler (s : AppState) : AppState :=
  { s with terminator := true }

end AppState

/-! ### The input router (`AppState::global_event_handler`) -/

/-- `crossterm::event::KeyCode`, restricted to the shapes the router
inspects: character keys plus non-character keys. -/
inductive KeyCode where
  | Char (c : Char) : KeyCode
  | Enter : KeyCode
  | Esc : KeyCode
  | Backspace : KeyCode
deriving DecidableEq, Repr

/-- `crossterm::event::KeyModifiers`: a bit set of modifier keys. -/
structure KeyModifiers where
  shift : Bool
  control : Bool
  alt : Bool
deriving DecidableEq, Repr

namespace KeyModifiers

/-- `KeyModifiers::is_empty`: no modifier bit is set. -/
def is_empty (m : KeyModifiers) : Bool :=
  !m.shift && !m.control && !m.alt

/-- The `KeyModifiers::CONTROL` constant: exactly the control bit. -/
def CONTROL : KeyModifiers :=
  { shift := false, control := true, alt := false }

end KeyModifiers

/-- A keyboard event (`code` plus `modifiers`), as read by the router. -/
structure KeyEvent where
  code : KeyCode
  modifiers : KeyModifiers
deriving DecidableEq, Repr

/-- Modelled from the spec: the payload of a mouse event (the `tuine` crate
is not among the sources); the router ignores all of it, so only a position
is carried. -/
structure MouseEvent where
  column : Nat
  row : Nat
deriving DecidableEq, Repr

/-- `crate::tuine::Event`, restricted to the two arms the router matches. -/
inductive Event where
  | Keyboard (event : KeyEvent) : Event
  | Mouse (event : MouseEvent) : Event
deriving DecidableEq, Repr

/-- `crate::tuine::Status`: the router's capture/ignore verdict. -/
inductive Status where
  | Captured : Status
  | Ignored : Status
deriving DecidableEq, Repr

/-- The local `on_quit` helper in `global_event_handler`: pushes `Quit`
onto the message list and reports `Captured`. -/
def on_quit (messages : List AppMessages) : Status × List AppMessages :=
  (Status.Captured, messages ++ [AppMessages.Quit])

/-- `AppState::global_event_handler` in `app.rs`.  The Rust function takes
`&mut self` but never touches the state, so it is embedded as a pure
function of the event and the (appended-to) message list. -/
def global_event_handler (event : Event) (messages : List AppMessages) :
    Status × List AppMessages :=
  match event with
  | Event.Keyboard event =>
      if event.modifiers.is_empty then
        match event.code with
        | KeyCode.Char 'q' => on_quit messages
        | KeyCode.Char 'Q' => on_quit messages
        | _ => (Status.Ignored, messages)
      else if event.modifiers = KeyModifiers.CONTROL then
        match event.code with
        | KeyCode.Char 'c' => on_quit messages
        | KeyCode.Char 'C' => on_quit messages
        | KeyCode.Char 'r' => (Status.Captured, messages ++ [AppMessages.Reset])
        | KeyCode.Char 'R' => (Status.Captured, messages ++ [AppMessages.Reset])
        | _ => (Status.Ignored, messages)
      else
        (Status.Ignored, messages)
  | Event.Mouse _ => (Status.Ignored, messages)

/-- The set of shortcuts `global_event_handler` maps to a message: `q`/`Q`
with no modifiers, and control plus `c`/`C`/`r`/`R`. -/
def isKnownShortcut (event : Event) : Bool :=
  match event with
  | Event.Keyboard e =>
      (e.modifiers.is_empty &&
        (e.code = KeyCode.Char 'q' || e.code = KeyCode.Char 'Q'))
      || (decide (e.modifiers = KeyModifiers.CONTROL) &&
          (e.code = KeyCode.Char 'c' || e.code = KeyCode.Char 'C' ||
           e.code = KeyCode.Char 'r' || e.code = KeyCode.Char 'R'))
  | Event.Mouse _ => false

/-! ### Operation sequences (for the monotonicity claim) -/

/-- One operation on the application state: either the reducer applies a
message, or the OS interrupt handler fires. -/
inductive AppOp where
  | Msg (m : AppMessages) : AppOp
  | Interrupt : AppOp
deriving DecidableEq, Repr

/-- Apply a single operation to the state. -/
def applyOp (s : AppState) (op : AppOp) : AppState :=
  match op with
  | AppOp.Msg m => (s.update m).1
  | AppOp.Interrupt => s.interrupt_handler

/-- Apply a sequence of operations in order. -/
def applyOps (s : AppState) (ops : List AppOp) : AppState :=
  ops.foldl applyOp s

/-- A concrete fresh application state (defaults of `AppState::new`:
empty data, `NotFrozen`, `Main` screen, terminator `false`). -/
def initAppState : AppState :=
  { data_collection := { points := [] }
    frozen_state := FrozenState.NotFrozen
    current_screen := CurrentScreen.Main
    terminator := false }

end Bottom

/-! ## Claims -/

namespace Bottom

/-- Concrete recognizer shared by the trace claims: pattern `['g','g']`,
timeout 500 ms, initially `Idle`. -/
def gg : MultiKey := MultiKey.register ['g', 'g'] 500

/-- The empty modifier set. -/
def noModifiers : KeyModifiers := { shift := false, control := false, alt := false }

/-- C1 (evaluation of the buggy code): `update OpenHelp` never changes the
screen — `set_current_screen` assigns only when the screen already equals
the target — so from the default `Main` screen the state stays `Main`
while a redraw is still reported. -/
theorem C1_openHelp_never_changes_screen :
    (∀ s : AppState, (s.update AppMessages.OpenHelp).1.current_screen = s.current_screen) ∧
    (initAppState.update AppMessages.OpenHelp).1.current_screen = CurrentScreen.Main ∧
    (initAppState.update AppMessages.OpenHelp).2 = true := by
  refine ⟨?_, rfl, rfl⟩
  intro s
  simp only [AppState.update, AppState.set_current_screen]
  split
  case isTrue h => exact h.symm
  case isFalse h => rfl

/-- C2: `update m` reports a redraw iff `m` is neither `Clean` nor `Quit`;
in particular `update Clean` and `update Quit` report `false`. -/
theorem C2_redraw_iff_not_clean_quit (s : AppState) (m : AppMessages) :
    ((s.update m).2 = true ↔ (m ≠ AppMessages.Clean ∧ m ≠ AppMessages.Quit)) ∧
    (s.update AppMessages.Clean).2 = false ∧
    (s.update AppMessages.Quit).2 = false := by
  refine ⟨?_, rfl, rfl⟩
  cases m <;> simp [AppState.update]

/-- C3: a `Waiting` recognizer past its timeout first resets to `Idle` and
then evaluates the character exactly as from `Idle`; concretely, with
pattern `['g','g']` and timeout 500, `input 'g'` then a 600 ms pause then
`input 'g'` is `Accepted` (fresh start), not `Rejected`. -/
theorem C3_timeout_reset_and_retry :
    (∀ (mk : MultiKey) (t i now : Nat) (c : Char),
        mk.state = MultiKeyState.Waiting t i →
        now - t > mk.timeout →
        mk.input now c = mk.reset.input now c) ∧
    (gg.input 0 'g').2 = MultiKeyResult.Accepted ∧
    ((gg.input 0 'g').1.input 600 'g').2 = MultiKeyResult.Accepted := by
  refine ⟨?_, by decide, by decide⟩
  intro mk t i now c hs ht
  simp [MultiKey.input, MultiKey.reset, hs, ht]

/-- C3 witness: the general timeout-reset-retry law applied at the concrete
`['g','g']` recognizer after a 600 ms pause. -/
theorem C3_witness :
    (gg.input 0 'g').1.input 600 'g' = ((gg.input 0 'g').1.reset).input 600 'g' :=
  C3_timeout_reset_and_retry.1 (gg.input 0 'g').1 0 0 600 'g' (by decide) (by decide)

/-- C4: within the timeout, a matching character that does not complete the
pattern advances the index by one, keeps the original trigger instant
unchanged, and returns `Accepted`. -/
theorem C4_partial_match_keeps_timer (mk : MultiKey) (t i now : Nat) (c : Char)
    (hs : mk.state = MultiKeyState.Waiting t i)
    (hto : ¬ (now - t > mk.timeout))
    (hnext : mk.pattern.get? (i + 1) = some c)
    (hlast : i + 1 ≠ mk.pattern.length - 1) :
    mk.input now c
      = ({ mk with state := MultiKeyState.Waiting t (i + 1) }, MultiKeyResult.Accepted) := by
  simp only [List.get?_eq_getElem?] at hnext
  simp [MultiKey.input, hs, hto, hnext, hlast]

/-- C4 witness: pattern `['g','a','b']` in state `Waiting 0 0`, fed `'a'` at
time 100: advances to `Waiting 0 1` (trigger instant still 0), `Accepted`. -/
theorem C4_witness :
    MultiKey.input
        { state := MultiKeyState.Waiting 0 0, pattern := ['g', 'a', 'b'], timeout := 500 }
        100 'a'
      = ({ state := MultiKeyState.Waiting 0 1, pattern := ['g', 'a', 'b'], timeout := 500 },
          MultiKeyResult.Accepted) :=
  C4_partial_match_keeps_timer
    { state := MultiKeyState.Waiting 0 0, pattern := ['g', 'a', 'b'], timeout := 500 }
    0 0 100 'a' rfl (by decide) (by decide) (by decide)

/-- C5: pattern `['g','g']`, timeout 500: `input 'g'` is `Accepted`; a second
`'g'` within the timeout is `Completed` and the state resets to `Idle`; a
third `'g'` is `Accepted` again (fresh start). -/
theorem C5_gg_completion_trace :
    (gg.input 100 'g').2 = MultiKeyResult.Accepted ∧
    ((gg.input 100 'g').1.input 200 'g').2 = MultiKeyResult.Completed ∧
    ((gg.input 100 'g').1.input 200 'g').1.state = MultiKeyState.Idle ∧
    (((gg.input 100 'g').1.input 200 'g').1.input 300 'g').2 = MultiKeyResult.Accepted := by
  decide

/-- C6: `'q'` with no modifiers is `Captured` with exactly one `Quit`;
control+`'r'` is `Captured` with exactly one `Reset`; control+`'x'` is
`Ignored` with no messages. -/
theorem C6_router_shortcuts :
    global_event_handler
        (Event.Keyboard { code := KeyCode.Char 'q', modifiers := noModifiers }) []
      = (Status.Captured, [AppMessages.Quit]) ∧
    global_event_handler
        (Event.Keyboard { code := KeyCode.Char 'r', modifiers := KeyModifiers.CONTROL }) []
      = (Status.Captured, [AppMessages.Reset]) ∧
    global_event_handler
        (Event.Keyboard { code := KeyCode.Char 'x', modifiers := KeyModifiers.CONTROL }) []
      = (Status.Ignored, []) := by
  refine ⟨rfl, rfl, rfl⟩

/-- C7: `update Clean` leaves the screen, the frozen state (hence its
Frozen/NotFrozen occupancy) and the terminator flag unchanged; only the
live data collection is touched. -/
theorem C7_clean_frame (s : AppState) :
    (s.update AppMessages.Clean).1.current_screen = s.current_screen ∧
    (s.update AppMessages.Clean).1.frozen_state.is_frozen = s.frozen_state.is_frozen ∧
    (s.update AppMessages.Clean).1.frozen_state = s.frozen_state ∧
    (s.update AppMessages.Clean).1.terminator = s.terminator := by
  refine ⟨rfl, rfl, rfl, rfl⟩

/-- Every single operation (any reducer message, or the interrupt handler)
preserves a `true` terminator flag: no path stores `false`. -/
theorem applyOp_terminator_mono (s : AppState) (op : AppOp)
    (h : s.terminator = true) : (applyOp s op).terminator = true := by
  cases op with
  | Interrupt => rfl
  | Msg m =>
      cases m
      case OpenHelp =>
        simp only [applyOp, AppState.update, AppState.set_current_screen]
        split <;> exact h
      all_goals simp [applyOp, AppState.update, h]

/-- C8: the termination flag is monotonic across any sequence of operations
(update calls, including `Quit`, and interrupt-handler invocations): once
`is_terminated` is `true` it stays `true`. -/
theorem C8_termination_monotonic (s : AppState) (ops : List AppOp)
    (h : s.is_terminated = true) : (applyOps s ops).is_terminated = true := by
  induction ops generalizing s with
  | nil => exact h
  | cons op rest ih => exact ih (applyOp s op) (applyOp_terminator_mono s op h)

/-- C8 witness: a terminated state stays terminated across a `Clean` message
and an interrupt. -/
theorem C8_witness :
    (applyOps { initAppState with terminator := true }
        [AppOp.Msg AppMessages.Clean, AppOp.Interrupt]).is_terminated = true :=
  C8_termination_monotonic { initAppState with terminator := true }
    [AppOp.Msg AppMessages.Clean, AppOp.Interrupt] rfl

/-- C9: an event matching no known shortcut is `Ignored` with an empty
message list, and every mouse event is `Ignored` with no messages. -/
theorem C9_unmatched_is_ignored :
    (∀ event : Event, isKnownShortcut event = false →
        global_event_handler event [] = (Status.Ignored, [])) ∧
    (∀ m : MouseEvent, global_event_handler (Event.Mouse m) [] = (Status.Ignored, [])) := by
  constructor
  · intro event h
    cases event with
    | Mouse m => rfl
    | Keyboard e =>
        obtain ⟨code, mods⟩ := e
        simp only [global_event_handler]
        split
        · split <;> simp_all [isKnownShortcut]
        · split
          · split <;> simp_all [isKnownShortcut]
          · rfl
  · intro m
    rfl

/-- C9 witness: control+`'x'` matches no shortcut and is `Ignored` with no
messages. -/
theorem C9_witness :
    global_event_handler
        (Event.Keyboard { code := KeyCode.Char 'x', modifiers := KeyModifiers.CONTROL }) []
      = (Status.Ignored, []) :=
  C9_unmatched_is_ignored.1
    (Event.Keyboard { code := KeyCode.Char 'x', modifiers := KeyModifiers.CONTROL })
    (by decide)

/-- C10: a recognizer whose pattern has length exactly 1 never returns
`Completed`; from `Idle` the matching character is `Accepted` into
`Waiting`, and any input while `Waiting` within the timeout finds no next
pattern character, resets to `Idle`, and is `Rejected`. -/
theorem C10_singleton_pattern_never_completes (mk : MultiKey) (p : Char)
    (hp : mk.pattern = [p]) (now : Nat) (c : Char) :
    (mk.input now c).2 ≠ MultiKeyResult.Completed ∧
    (mk.state = MultiKeyState.Idle → c = p →
      mk.input now c
        = ({ mk with state := MultiKeyState.Waiting now 0 }, MultiKeyResult.Accepted)) ∧
    (∀ t i, mk.state = MultiKeyState.Waiting t i → now - t ≤ mk.timeout →
      mk.input now c = (mk.reset, MultiKeyResult.Rejected)) := by
  refine ⟨?_, ?_, ?_⟩
  · cases hstate : mk.state with
    | Idle =>
        by_cases hc : p = c <;>
          simp [MultiKey.input, MultiKey.inputIdle, hstate, hp, hc]
    | Waiting t i =>
        by_cases hto : now - t > mk.timeout
        · by_cases hc : p = c <;>
            simp [MultiKey.input, MultiKey.inputIdle, MultiKey.reset, hstate, hp, hto, hc]
        · simp [MultiKey.input, hstate, hp, hto, List.get?]
  · intro hstate hc
    simp [MultiKey.input, MultiKey.inputIdle, hstate, hp, hc]
  · intro t i hstate hto
    have hto2 : ¬ (now - t > mk.timeout) := not_lt.mpr hto
    simp [MultiKey.input, hstate, hp, hto2, List.get?]

/-- C10 witness: pattern `['g']`: the first `'g'` never completes. -/
theorem C10_witness :
    ((MultiKey.register ['g'] 500).input 0 'g').2 ≠ MultiKeyResult.Completed :=
  (C10_singleton_pattern_never_completes (MultiKey.register ['g'] 500) 'g' rfl 0 'g').1

end Bottom
